import Mathlib

/-!
Verification development for the "Daily Motivation" egui/wgpu application
(src/src/main.rs): a shallow embedding of its quote-rotation state, its
persistence configuration, and its per-frame window-animation engine,
together with proofs about that embedding.

Modelling conventions:
* Rust `f32` quantities that the program only adds, compares, and scales
  (the animation progress accumulator, opacities, velocities) are modelled
  as exact rationals or integers; every such source value (0.016, 2.5,
  +-5.0, ...) is integral or a short decimal, so exact arithmetic is the
  intended real-number semantics of the code.
* `Instant` timestamps are natural numbers in an arbitrary time unit; the
  unit is chosen per simulation (seconds below).
* Window-geometry reads (`outer_position`, `current_monitor`) are modelled
  as succeeding; the source silently skips the corresponding block for a
  frame when a platform call fails.
* Trigonometric window offsets use `Real.sin`/`Real.cos`; Rust casts
  `f32 as i32` (truncation toward zero), modelled by `truncI`.
-/

namespace Motivation

/-- The animation variants of `enum AppAnimation` (main.rs lines 302-312). -/
inductive AppAnimation where
  | none
  | bounce
  | shake
  | dance
  | rotate
  | dissolve
  | fly
  deriving DecidableEq

/-- `struct Quote` (main.rs lines 82-86). -/
structure Quote where
  main_text : String
  sub_text : String
  deriving DecidableEq

/-- `enum ThemeMode` (main.rs lines 124-128). -/
inductive ThemeMode where
  | gradient
  | solid
  deriving DecidableEq

/-- egui `Color32`: four `u8` channels (r, g, b, a), modelled as naturals. -/
structure Color32 where
  r : Nat
  g : Nat
  b : Nat
  a : Nat
  deriving DecidableEq

/-- `struct ThemeConfig` (main.rs lines 98-105). -/
structure ThemeConfig where
  mode : ThemeMode
  gradient_angle : Int
  gradient_colors : List Color32
  solid_color : Color32
  apply_to_entire_window : Bool
  deriving DecidableEq

/-- `struct TextStyleConfig` (main.rs lines 131-140); the `f32` fields are
modelled as rationals. -/
structure TextStyleConfig where
  main_text_size : Rat
  sub_text_size : Rat
  main_text_color : Color32
  sub_text_color : Color32
  main_line_gap : Rat
  sub_line_gap : Rat
  between_gap : Rat
  deriving DecidableEq

/-- `struct AppConfig` (main.rs lines 319-325): the persisted settings. -/
structure AppConfig where
  quotes : List Quote
  interval_secs : Nat
  theme : ThemeConfig
  text_style : TextStyleConfig
  deriving DecidableEq

/-- The animation-and-quotes slice of `struct AppState` (main.rs lines
350-411).  UI-only fields (hover flags, input buffers, process handles,
resize state) are omitted: no formalised operation reads or writes them. -/
structure AppState where
  quotes : List Quote
  current_quote_index : Nat
  rotation_interval : Nat
  last_rotation : Nat
  rotation_enabled : Bool
  interval_secs : Nat
  theme : ThemeConfig
  text_style : TextStyleConfig
  rotation : Nat
  active_animation : AppAnimation
  anim_progress : Rat
  bounce_vel_x : Int
  bounce_vel_y : Int
  base_pos : Option (Int × Int)
  deriving DecidableEq

/-- The default sub text used by `add_quote` when the supplied sub text is
empty (main.rs line 583). -/
def defaultSubText : String := "Keep pushing - You\x27re doing great! 🌟"

/-- The ten built-in default quotes (main.rs lines 453-494). -/
def defaultQuotes : List Quote :=
  [ ⟨"এখনই কাজে মনোযোগ দাও - ফোকাস তোমার শক্তি", defaultSubText⟩,
    ⟨"প্রতিটি মুহূর্ত গুরুত্বপূর্ণ - কাজ চালিয়ে যাও", defaultSubText⟩,
    ⟨"সফলতা ধৈর্যের ফল - হার মানিও না", defaultSubText⟩,
    ⟨"Focus on the work - Success is near", defaultSubText⟩,
    ⟨"Stay disciplined - Great things take time", defaultSubText⟩,
    ⟨"তুমি পারবে - শুধু চেষ্টা চালিয়ে যাও", defaultSubText⟩,
    ⟨"Dreams need action - Start now", defaultSubText⟩,
    ⟨"প্রতিদিন একটু এগিয়ে যাও - লক্ষ্য কাছে", defaultSubText⟩,
    ⟨"Consistency beats talent - Keep going", defaultSubText⟩,
    ⟨"বিশ্রাম নাও কিন্তু হাল ছাড়ো না", defaultSubText⟩ ]

/-- `ThemeConfig::default` (main.rs lines 107-122). -/
def defaultThemeConfig : ThemeConfig :=
  { mode := ThemeMode.gradient
    gradient_angle := 135
    gradient_colors := [⟨2, 4, 16, 255⟩, ⟨30, 0, 80, 255⟩, ⟨0, 60, 120, 255⟩, ⟨0, 200, 180, 255⟩]
    solid_color := ⟨2, 8, 24, 255⟩
    apply_to_entire_window := true }

/-- `TextStyleConfig::default` (main.rs lines 142-153). -/
def defaultTextStyleConfig : TextStyleConfig :=
  { main_text_size := 24
    sub_text_size := 14
    main_text_color := ⟨255, 255, 255, 255⟩
    sub_text_color := ⟨255, 255, 255, 200⟩
    main_line_gap := 8/5
    sub_line_gap := 8/5
    between_gap := 15 }

/-- `AppState::default`, the branch taken when no settings file is present
(main.rs lines 449-530), restricted to the modelled fields. -/
def defaultAppState : AppState :=
  { quotes := defaultQuotes
    current_quote_index := 0
    rotation_interval := 8
    last_rotation := 0
    rotation_enabled := true
    interval_secs := 8
    theme := defaultThemeConfig
    text_style := defaultTextStyleConfig
    rotation := 0
    active_animation := AppAnimation.none
    anim_progress := 0
    bounce_vel_x := 5
    bounce_vel_y := 4
    base_pos := none }

/-- `AppState::save` (main.rs lines 545-553): the `AppConfig` value written
to settings.json. -/
def AppState.saveConfig (s : AppState) : AppConfig :=
  { quotes := s.quotes
    interval_secs := s.interval_secs
    theme := s.theme
    text_style := s.text_style }

/-- `AppState::next_quote` (main.rs lines 561-566).  `now` models the value
of `Instant::now()` at the call. -/
def next_quote (s : AppState) (now : Nat) : AppState :=
  if ¬ s.quotes.isEmpty then
    { s with
      current_quote_index := (s.current_quote_index + 1) % s.quotes.length
      last_rotation := now }
  else s

/-- `AppState::prev_quote` (main.rs lines 569-578). -/
def prev_quote (s : AppState) (now : Nat) : AppState :=
  if ¬ s.quotes.isEmpty then
    if s.current_quote_index = 0 then
      { s with current_quote_index := s.quotes.length - 1, last_rotation := now }
    else
      { s with current_quote_index := s.current_quote_index - 1, last_rotation := now }
  else s

/-- `AppState::add_quote` (main.rs lines 581-593).  The second component is
the `AppConfig` written by the trailing `self.save()` call. -/
def add_quote (s : AppState) (main sub : String) : AppState × Option AppConfig :=
  let sub := if sub = "" then defaultSubText else sub
  let qs := s.quotes ++ [⟨main, sub⟩]
  let s' := { s with quotes := qs, current_quote_index := qs.length - 1 }
  (s', some s'.saveConfig)

/-- `AppState::delete_quote` (main.rs lines 596-604).  The second component
is the `AppConfig` written by `self.save()` (none when the guard fails and
nothing is saved). -/
def delete_quote (s : AppState) (index : Nat) : AppState × Option AppConfig :=
  if index < s.quotes.length then
    let qs := s.quotes.eraseIdx index
    let idx :=
      if s.current_quote_index ≥ qs.length ∧ ¬ qs.isEmpty then qs.length - 1
      else s.current_quote_index
    let s' := { s with quotes := qs, current_quote_index := idx }
    (s', some s'.saveConfig)
  else (s, none)

/-- The per-frame quote-rotation timer check (main.rs lines 3819-3824):
advance when enabled, the elapsed time since the last rotation has reached
the interval, and the list is non-empty.  `now` is the timestamp of the current frame; `Instant::elapsed` is `now - last_rotation`. -/
def rotationTimerStep (s : AppState) (now : Nat) : AppState :=
  if s.rotation_enabled ∧ s.rotation_interval ≤ now - s.last_rotation ∧ ¬ s.quotes.isEmpty then
    next_quote s now
  else s

/-- Run the rotation timer check once per listed frame timestamp. -/
def simulateRotation (s : AppState) (frames : List Nat) : AppState :=
  frames.foldl rotationTimerStep s

/-- The index-validity invariant of the quote list (spec section 3): the
current index is in range whenever the list is non-empty. -/
def indexInv (s : AppState) : Prop :=
  s.quotes ≠ [] → s.current_quote_index < s.quotes.length

/-- The OS window as the animation engine observes and mutates it: outer
position, outer size, and the layered-window alpha byte (0-255). -/
structure Win where
  pos : Int × Int
  width : Nat
  height : Nat
  alpha : Int
  deriving DecidableEq

/-- The animation-related subset of `enum TitleBarAction` (main.rs lines
276-296): the actions whose handlers touch the animation state. -/
inductive AnimAction where
  | animateClicked
  | playBounce
  | playShake
  | playDance
  | playRotate
  | playDissolve
  | playFly
  | stopAnimations
  deriving DecidableEq

/-- The shared opening of the `PlayBounce`/`PlayShake`/`PlayDance`/
`PlayDissolve`/`PlayFly` handlers: when no animation is active, capture the
outer position of the window into `base_pos` (skipped when the platform read
fails, hence the `Option`). -/
def captureBase (s : AppState) (posRead : Option (Int × Int)) : AppState :=
  if s.active_animation = AppAnimation.none then
    match posRead with
    | some p => { s with base_pos := some p }
    | none => s
  else s

/-- The animation arms of the title-bar action dispatch (main.rs lines
3545-3679).  `posRead` models `window.outer_position()`.  `PlayRotate`
swaps the width and height of the window and advances the quadrant; it never
assigns `active_animation`.  `StopAnimations` resets the alpha, restores
`base_pos` when held, and clears it. -/
def handleAnimAction (s : AppState) (w : Win) (posRead : Option (Int × Int)) :
    AnimAction → AppState × Win
  | AnimAction.animateClicked =>
      ({ s with active_animation :=
          if s.active_animation = AppAnimation.bounce then AppAnimation.none
          else AppAnimation.bounce }, w)
  | AnimAction.playBounce =>
      let s := captureBase s posRead
      ({ s with active_animation :=
          if s.active_animation = AppAnimation.bounce then AppAnimation.none
          else AppAnimation.bounce }, w)
  | AnimAction.playShake =>
      let s := captureBase s posRead
      ({ s with active_animation :=
          if s.active_animation = AppAnimation.shake then AppAnimation.none
          else AppAnimation.shake }, w)
  | AnimAction.playDance =>
      let s := captureBase s posRead
      ({ s with active_animation :=
          if s.active_animation = AppAnimation.dance then AppAnimation.none
          else AppAnimation.dance }, w)
  | AnimAction.playRotate =>
      ({ s with rotation := (s.rotation + 1) % 4 },
       { w with width := w.height, height := w.width })
  | AnimAction.playDissolve =>
      let s := captureBase s posRead
      let s := { s with active_animation :=
          if s.active_animation = AppAnimation.dissolve then AppAnimation.none
          else AppAnimation.dissolve }
      if s.active_animation = AppAnimation.none then (s, { w with alpha := 255 })
      else (s, w)
  | AnimAction.playFly =>
      let s := captureBase s posRead
      ({ s with active_animation :=
          if s.active_animation = AppAnimation.fly then AppAnimation.none
          else AppAnimation.fly }, w)
  | AnimAction.stopAnimations =>
      let s := { s with active_animation := AppAnimation.none }
      let w := { w with alpha := 255 }
      let w := match s.base_pos with
        | some p => { w with pos := p }
        | none => w
      ({ s with base_pos := none }, w)

/-- The per-frame progress increment of the animation engine: main.rs line
3690 adds the constant 0.016 to `anim_progress` every rendered frame. -/
def frameDelta : Rat := 16/1000

/-- `anim_progress += 0.016` (main.rs line 3690) as a function of the
accumulator alone: the increment does not depend on the elapsed
wall-clock time of the frame. -/
def progressUpdate (p : Rat) : Rat := p + frameDelta

/-- The accumulator after `n` rendered frames, starting from 0. -/
def animProgressAfterFrames : Nat → Rat
  | 0 => 0
  | n + 1 => progressUpdate (animProgressAfterFrames n)

/-- Rust `f32 as i32`: truncation toward zero. -/
noncomputable def truncI (x : Real) : Int :=
  if 0 ≤ x then ⌊x⌋ else ⌈x⌉

/-- One frame of the Bounce branch (main.rs lines 3699-3723): integrate the
position by the velocity, clamp at each of the four screen edges and negate
the corresponding velocity axis there.  Arguments: current outer position,
current velocity, outer size, monitor size.  Returns the position written
to the window and the updated velocity.  All source arithmetic is on exact
integral `f32` values, so integers are used directly. -/
def bounceFrame (px py vx vy : Int) (winW winH monW monH : Nat) :
    (Int × Int) × (Int × Int) :=
  let nx0 := px + vx
  let (nx, vx') :=
    if nx0 < 0 then ((0 : Int), -vx)
    else if nx0 + (winW : Int) > (monW : Int) then ((monW : Int) - (winW : Int), -vx)
    else (nx0, vx)
  let ny0 := py + vy
  let (ny, vy') :=
    if ny0 < 0 then ((0 : Int), -vy)
    else if ny0 + (winH : Int) > (monH : Int) then ((monH : Int) - (winH : Int), -vy)
    else (ny0, vy)
  ((nx, ny), (vx', vy'))

/-- Shake offsets (main.rs lines 3726-3728): intensity 12, frequencies 130
and 115, each offset truncated to `i32` before being added to the base. -/
noncomputable def shakeOffset (p : Rat) : Int × Int :=
  (truncI (Real.sin ((p : Real) * 130) * 12), truncI (Real.cos ((p : Real) * 115) * 12))

/-- Dance offsets (main.rs lines 3735-3737): radius 70, frequencies 4 and
2.5. -/
noncomputable def danceOffset (p : Rat) : Int × Int :=
  (truncI (Real.sin ((p : Real) * 4) * 70), truncI (Real.cos ((p : Real) * (5/2)) * 70))

/-- The Dissolve opacity (main.rs line 3756):
`0.4 + 0.6 * (progress * 2.5).cos().abs()`. -/
noncomputable def dissolveOpacity (p : Rat) : Real :=
  0.4 + 0.6 * |Real.cos ((p : Real) * (5/2))|

/-- One frame of the animation engine (main.rs lines 3684-3793), entered
when an animation is active and the position and monitor reads succeed:
advance the accumulator by the fixed 0.016, capture `base_pos` if unset,
then apply the update of the active variant to the state and the window.  The
Rotate branch resets the accumulator past 2.5 and pushes a `PlayRotate`
action onto a vector that this frame has already finished iterating, so
the pushed action is dropped; only the reset is observable. -/
noncomputable def engineStep (s : AppState) (w : Win) (monW monH : Nat) :
    AppState × Win :=
  let s := { s with anim_progress := s.anim_progress + frameDelta }
  let s := if s.base_pos = none then { s with base_pos := some w.pos } else s
  let base := s.base_pos.getD w.pos
  match s.active_animation with
  | AppAnimation.bounce =>
      let r := bounceFrame w.pos.1 w.pos.2 s.bounce_vel_x s.bounce_vel_y w.width w.height monW monH
      ({ s with bounce_vel_x := r.2.1, bounce_vel_y := r.2.2, base_pos := some r.1 },
       { w with pos := r.1 })
  | AppAnimation.shake =>
      let o := shakeOffset s.anim_progress
      (s, { w with pos := (base.1 + o.1, base.2 + o.2) })
  | AppAnimation.dance =>
      let o := danceOffset s.anim_progress
      (s, { w with pos := (base.1 + o.1, base.2 + o.2) })
  | AppAnimation.rotate =>
      if s.anim_progress > 5/2 then ({ s with anim_progress := 0 }, w)
      else (s, w)
  | AppAnimation.dissolve =>
      (s, { w with alpha := truncI (dissolveOpacity s.anim_progress * 255) })
  | AppAnimation.fly =>
      let nx0 := w.pos.1 + 12
      let nx := if nx0 > (monW : Int) then -(w.width : Int) else nx0
      let ny := truncI ((monH : Real) / 2 + Real.sin ((s.anim_progress : Real) * 2) * 150)
      (s, { w with pos := (nx, ny) })
  | AppAnimation.none => (s, w)

/-- The `else` arm of the animation engine (main.rs lines 3794-3817),
reached when `active_animation` is `None`: if a `base_pos` is still held,
reset the alpha, restore the window position only when the (already
`None`) active animation matches Shake or Dance - the source condition,
kept verbatim here, can never hold in this branch - then clear `base_pos`
and zero the accumulator. -/
def cleanupStep (s : AppState) (w : Win) : AppState × Win :=
  if s.base_pos.isSome then
    let w := { w with alpha := 255 }
    let w :=
      if s.active_animation = AppAnimation.shake ∨ s.active_animation = AppAnimation.dance then
        match s.base_pos with
        | some p => { w with pos := p }
        | none => w
      else w
    ({ s with base_pos := none, anim_progress := 0 }, w)
  else (s, w)

/-- One rendered frame of the animation subsystem: dispatch the title-bar
actions of the frame in order, then run the engine when an animation is
active, otherwise the cleanup arm.  Position reads are modelled as
succeeding and returning the current window position. -/
noncomputable def frameAnimStep (s : AppState) (w : Win) (acts : List AnimAction)
    (monW monH : Nat) : AppState × Win :=
  let t := acts.foldl (fun p a => handleAnimAction p.1 p.2 (some p.2.pos) a) (s, w)
  if t.1.active_animation ≠ AppAnimation.none then engineStep t.1 t.2 monW monH
  else cleanupStep t.1 t.2

/-- A JSON value, as serde_json produces and consumes it.  Numbers are
rationals: every numeric field of `AppConfig` (u64, i32, u8, finite f32)
embeds exactly. -/
inductive Json where
  | null : Json
  | bool : Bool → Json
  | num : Rat → Json
  | str : String → Json
  | arr : List Json → Json
  | obj : List (String × Json) → Json

/-! `AppConfig::save` runs the derived `Serialize` of `AppConfig` through
`serde_json::to_writer_pretty`, and `AppConfig::load` runs the derived
`Deserialize` through `serde_json::from_reader` (main.rs lines 327-343).
The derived format is structural: structs become objects keyed by field
name, `Vec` becomes an array, `String` a string, numbers numbers, `bool` a
boolean, the unit enum `ThemeMode` the string naming its variant, and
the egui `Color32` (a newtype over `[u8; 4]`) a four-element array.  The
encoders below produce exactly that format and the decoders accept it. -/

/-- Encode a natural (u8 / u64 field) as a JSON number. -/
def encodeNat (n : Nat) : Json := Json.num n

/-- Decode a natural: an integral, non-negative JSON number. -/
def decodeNat : Json → Option Nat
  | Json.num q => if q.den = 1 ∧ 0 ≤ q.num then some q.num.toNat else none
  | _ => none

/-- Encode an integer (i32 field) as a JSON number. -/
def encodeInt (n : Int) : Json := Json.num n

/-- Decode an integer: an integral JSON number. -/
def decodeInt : Json → Option Int
  | Json.num q => if q.den = 1 then some q.num else none
  | _ => none

/-- Decode a rational (f32 field). -/
def decodeRat : Json → Option Rat
  | Json.num q => some q
  | _ => none

/-- Serialized `Quote`: an object with the two string fields. -/
def encodeQuote (q : Quote) : Json :=
  Json.obj [("main_text", Json.str q.main_text), ("sub_text", Json.str q.sub_text)]

/-- Decode a `Quote`. -/
def decodeQuote : Json → Option Quote
  | Json.obj [("main_text", Json.str m), ("sub_text", Json.str s)] => some ⟨m, s⟩
  | _ => none

/-- Decode a list of quotes elementwise. -/
def decodeQuotes : List Json → Option (List Quote)
  | [] => some []
  | j :: js =>
      match decodeQuote j, decodeQuotes js with
      | some q, some qs => some (q :: qs)
      | _, _ => none

/-- Serialized `Color32`: the four channel bytes as an array. -/
def encodeColor (c : Color32) : Json :=
  Json.arr [encodeNat c.r, encodeNat c.g, encodeNat c.b, encodeNat c.a]

/-- Decode a `Color32`. -/
def decodeColor : Json → Option Color32
  | Json.arr [jr, jg, jb, ja] =>
      match decodeNat jr, decodeNat jg, decodeNat jb, decodeNat ja with
      | some r, some g, some b, some a => some ⟨r, g, b, a⟩
      | _, _, _, _ => none
  | _ => none

/-- Decode a list of colors elementwise. -/
def decodeColors : List Json → Option (List Color32)
  | [] => some []
  | j :: js =>
      match decodeColor j, decodeColors js with
      | some c, some cs => some (c :: cs)
      | _, _ => none

/-- Serialized `ThemeMode`: the variant name as a string. -/
def encodeMode : ThemeMode → Json
  | ThemeMode.gradient => Json.str "Gradient"
  | ThemeMode.solid => Json.str "Solid"

/-- Decode a `ThemeMode`. -/
def decodeMode : Json → Option ThemeMode
  | Json.str "Gradient" => some ThemeMode.gradient
  | Json.str "Solid" => some ThemeMode.solid
  | _ => none

/-- Serialized `ThemeConfig`. -/
def encodeTheme (t : ThemeConfig) : Json :=
  Json.obj
    [ ("mode", encodeMode t.mode),
      ("gradient_angle", encodeInt t.gradient_angle),
      ("gradient_colors", Json.arr (t.gradient_colors.map encodeColor)),
      ("solid_color", encodeColor t.solid_color),
      ("apply_to_entire_window", Json.bool t.apply_to_entire_window) ]

/-- Decode a `ThemeConfig`. -/
def decodeTheme : Json → Option ThemeConfig
  | Json.obj
      [ ("mode", jm),
        ("gradient_angle", jga),
        ("gradient_colors", Json.arr jgc),
        ("solid_color", jsc),
        ("apply_to_entire_window", Json.bool b) ] =>
      match decodeMode jm, decodeInt jga, decodeColors jgc, decodeColor jsc with
      | some m, some ga, some gc, some sc => some ⟨m, ga, gc, sc, b⟩
      | _, _, _, _ => none
  | _ => none

/-- Serialized `TextStyleConfig`. -/
def encodeTextStyle (t : TextStyleConfig) : Json :=
  Json.obj
    [ ("main_text_size", Json.num t.main_text_size),
      ("sub_text_size", Json.num t.sub_text_size),
      ("main_text_color", encodeColor t.main_text_color),
      ("sub_text_color", encodeColor t.sub_text_color),
      ("main_line_gap", Json.num t.main_line_gap),
      ("sub_line_gap", Json.num t.sub_line_gap),
      ("between_gap", Json.num t.between_gap) ]

/-- Decode a `TextStyleConfig`. -/
def decodeTextStyle : Json → Option TextStyleConfig
  | Json.obj
      [ ("main_text_size", jms),
        ("sub_text_size", jss),
        ("main_text_color", jmc),
        ("sub_text_color", jsc),
        ("main_line_gap", jmg),
        ("sub_line_gap", jsg),
        ("between_gap", jbg) ] =>
      match decodeRat jms, decodeRat jss, decodeColor jmc, decodeColor jsc,
          decodeRat jmg, decodeRat jsg, decodeRat jbg with
      | some ms, some ss, some mc, some sc, some mg, some sg, some bg =>
          some ⟨ms, ss, mc, sc, mg, sg, bg⟩
      | _, _, _, _, _, _, _ => none
  | _ => none

/-- Serialized `AppConfig`: what `AppConfig::save` writes to
settings.json. -/
def encodeAppConfig (c : AppConfig) : Json :=
  Json.obj
    [ ("quotes", Json.arr (c.quotes.map encodeQuote)),
      ("interval_secs", encodeNat c.interval_secs),
      ("theme", encodeTheme c.theme),
      ("text_style", encodeTextStyle c.text_style) ]

/-- Decode an `AppConfig`: what `AppConfig::load` reads back. -/
def decodeAppConfig : Json → Option AppConfig
  | Json.obj
      [ ("quotes", Json.arr jq),
        ("interval_secs", ji),
        ("theme", jt),
        ("text_style", jts) ] =>
      match decodeQuotes jq, decodeNat ji, decodeTheme jt, decodeTextStyle jts with
      | some qs, some i, some t, some ts => some ⟨qs, i, t, ts⟩
      | _, _, _, _ => none
  | _ => none

/-- A window at the default outer size (main.rs line 70), fully opaque. -/
def defaultWin : Win := { pos := (100, 100), width := 1100, height := 700, alpha := 255 }

/-- A state in which Shake is active with the base position captured at
(100, 100) and some accumulated progress: the state reached a few frames
after triggering Shake from an idle state at (100, 100). -/
def shakeActiveState : AppState :=
  { defaultAppState with
    active_animation := AppAnimation.shake
    base_pos := some (100, 100)
    anim_progress := 1/2 }

/-- The window mid-shake: displaced from the captured base position
(100, 100) by a Shake frame offset. -/
def shakenWin : Win := { pos := (112, 100), width := 1100, height := 700, alpha := 255 }

/-- The default state with the last quote selected (index 9 of 10). -/
def lastIndexState : AppState := { defaultAppState with current_quote_index := 9 }

/-! Helper lemmas about the quote operations. -/

theorem indexInv_next_quote (s : AppState) (now : Nat) (h : indexInv s) :
    indexInv (next_quote s now) := by
  unfold next_quote
  by_cases he : s.quotes.isEmpty
  · simpa [he] using h
  · have hne : s.quotes ≠ [] := by simpa [List.isEmpty_iff] using he
    intro _
    simp only [he, Bool.false_eq_true, not_false_iff, if_pos]
    exact Nat.mod_lt _ (List.length_pos.mpr hne)

theorem indexInv_prev_quote (s : AppState) (now : Nat) (h : indexInv s) :
    indexInv (prev_quote s now) := by
  unfold prev_quote
  by_cases he : s.quotes.isEmpty
  · simpa [he] using h
  · have hne : s.quotes ≠ [] := by simpa [List.isEmpty_iff] using he
    have hlen := List.length_pos.mpr hne
    have hlt := h hne
    by_cases hz : s.current_quote_index = 0 <;> intro _ <;> simp only [he, hz] <;> simp <;> omega

theorem indexInv_add_quote (s : AppState) (main sub : String) :
    indexInv (add_quote s main sub).1 := by
  unfold add_quote indexInv
  intro _
  simp

theorem indexInv_delete_quote (s : AppState) (i : Nat) (h : indexInv s) :
    indexInv (delete_quote s i).1 := by
  unfold delete_quote
  by_cases hi : i < s.quotes.length
  · simp only [hi, if_pos]
    intro hne
    simp only at hne ⊢
    have hlen : 0 < (s.quotes.eraseIdx i).length := List.length_pos.mpr hne
    split_ifs with hc
    · omega
    · rcases not_and_or.mp hc with hlt | hemp
      · omega
      · exact absurd (by simpa [List.isEmpty_iff] using hne) (by simpa using hemp)
  · simpa [hi] using h

theorem delete_quote_empty_noop (s : AppState) (i : Nat) (h : s.quotes = []) :
    delete_quote s i = (s, none) := by
  unfold delete_quote
  simp [h]

/-! Claim theorems. -/

/-- C8: every quote operation preserves the invariant that
`current_quote_index` is in `[0, len)` whenever the quote list is
non-empty, and on an empty list `next_quote`, `prev_quote` and
`delete_quote` leave the state unchanged (total functions: no panic). -/
theorem c8_quote_ops_preserve_index_invariant (s : AppState) (now : Nat)
    (main sub : String) (i : Nat) (h : indexInv s) :
    indexInv (next_quote s now) ∧ indexInv (prev_quote s now) ∧
    indexInv (add_quote s main sub).1 ∧ indexInv (delete_quote s i).1 ∧
    (s.quotes = [] →
      next_quote s now = s ∧ prev_quote s now = s ∧ delete_quote s i = (s, none)) := by
  refine ⟨indexInv_next_quote s now h, indexInv_prev_quote s now h,
    indexInv_add_quote s main sub, indexInv_delete_quote s i h, fun he => ⟨?_, ?_, ?_⟩⟩
  · unfold next_quote
    simp [he]
  · unfold prev_quote
    simp [he]
  · exact delete_quote_empty_noop s i he

/-- C8 witness: the theorem applied to the default state. -/
theorem c8_quote_ops_preserve_index_invariant_witness :
    indexInv defaultAppState ∧ indexInv (next_quote defaultAppState 3) :=
  have h : indexInv defaultAppState := fun _ => by decide
  ⟨h, (c8_quote_ops_preserve_index_invariant defaultAppState 3 "m" "s" 0 h).1⟩

/-- C2: deleting the last quote while the last quote is selected moves the
selection to the new last index (`len - 2`), or leaves it 0 when the list
becomes empty, and no delete ever leaves the index out of range for a
non-empty list. -/
theorem c2_delete_last_quote_clamps_index (s : AppState)
    (hne : s.quotes ≠ []) (hidx : s.current_quote_index = s.quotes.length - 1) :
    (delete_quote s (s.quotes.length - 1)).1.quotes.length = s.quotes.length - 1 ∧
    (2 ≤ s.quotes.length →
      (delete_quote s (s.quotes.length - 1)).1.current_quote_index = s.quotes.length - 2) ∧
    (s.quotes.length = 1 →
      (delete_quote s (s.quotes.length - 1)).1.current_quote_index = 0) ∧
    (∀ i, (delete_quote s i).1.quotes ≠ [] →
      (delete_quote s i).1.current_quote_index < (delete_quote s i).1.quotes.length) := by
  have hlen : 0 < s.quotes.length := List.length_pos.mpr hne
  have hi : s.quotes.length - 1 < s.quotes.length := by omega
  have herase : (s.quotes.eraseIdx (s.quotes.length - 1)).length = s.quotes.length - 1 := by
    rw [List.length_eraseIdx]
    simp [hi]
  have hInv : indexInv s := fun _ => by omega
  refine ⟨?_, ?_, ?_, fun i => indexInv_delete_quote s i hInv⟩
  · unfold delete_quote
    simp [hi, herase]
  · intro h2
    have hne2 : s.quotes.eraseIdx (s.quotes.length - 1) ≠ [] := by
      intro hnil
      have := congrArg List.length hnil
      rw [herase] at this
      simp at this
      omega
    have hc1 : s.current_quote_index ≥ (s.quotes.eraseIdx (s.quotes.length - 1)).length := by
      omega
    have hc2 : ¬ (s.quotes.eraseIdx (s.quotes.length - 1)).isEmpty := by
      simpa [List.isEmpty_iff] using hne2
    simp [delete_quote, hi, hc1, hc2, herase]
    split_ifs with hsplit <;> omega
  · intro h1
    have hempty : (s.quotes.eraseIdx (s.quotes.length - 1)).isEmpty := by
      rw [List.isEmpty_iff, ← List.length_eq_zero]
      omega
    simp [delete_quote, hi, hempty]
    omega

/-- C2 witness: deleting the last of the ten default quotes with the last
selected moves the selection to index 8. -/
theorem c2_delete_last_quote_clamps_index_witness :
    lastIndexState.quotes ≠ [] ∧
    lastIndexState.current_quote_index = lastIndexState.quotes.length - 1 ∧
    (2 ≤ lastIndexState.quotes.length →
      (delete_quote lastIndexState (lastIndexState.quotes.length - 1)).1.current_quote_index =
        lastIndexState.quotes.length - 2) :=
  have h1 : lastIndexState.quotes ≠ [] := by
    simp [lastIndexState, defaultAppState, defaultQuotes]
  have h2 : lastIndexState.current_quote_index = lastIndexState.quotes.length - 1 := by
    simp [lastIndexState, defaultAppState, defaultQuotes]
  ⟨h1, h2, (c2_delete_last_quote_clamps_index lastIndexState h1 h2).2.1⟩

/-- C10: `add_quote` substitutes the built-in default sub text for an empty
sub text and otherwise keeps it, appends the new quote at the end, selects
the new last index, and persists the settings. -/
theorem c10_add_quote_defaults_appends_selects_saves (s : AppState) (main sub : String) :
    (add_quote s main sub).1.quotes =
      s.quotes ++ [⟨main, if sub = "" then defaultSubText else sub⟩] ∧
    (add_quote s main sub).1.current_quote_index = (add_quote s main sub).1.quotes.length - 1 ∧
    (add_quote s main sub).2 = some (add_quote s main sub).1.saveConfig :=
  ⟨rfl, rfl, rfl⟩

set_option maxRecDepth 20000 in
/-- C4: with rotation enabled, a 5-second interval and the ten default
quotes starting at index 0, running the per-frame rotation check at each
of the first 47 whole seconds leaves the index at 9. -/
theorem c4_rotation_47_seconds_index_9 :
    (simulateRotation
      { defaultAppState with rotation_interval := 5, last_rotation := 0 }
      ((List.range 47).map (· + 1))).current_quote_index = 9 := by
  decide

/-- The accumulator after `n` frames is `n` times the fixed increment. -/
theorem animProgressAfterFrames_eq (n : Nat) :
    animProgressAfterFrames n = n * frameDelta := by
  induction n with
  | zero => simp [animProgressAfterFrames]
  | succ n ih =>
      simp only [animProgressAfterFrames, progressUpdate, ih, Nat.cast_succ]
      ring

/-- C5 counterexample: two executions spanning the same total wall-clock
time (one second: 60 frames of 1/60 s, and 120 frames of 1/120 s) end with
different progress accumulators, refuting frame-rate independence. -/
theorem c5_counterexample_same_wall_time_different_progress :
    (60 : Rat) * (1/60) = (120 : Rat) * (1/120) ∧
    animProgressAfterFrames 60 ≠ animProgressAfterFrames 120 := by
  constructor
  · norm_num
  · rw [animProgressAfterFrames_eq, animProgressAfterFrames_eq]
    norm_num [frameDelta]

/-- C5 amended: the per-frame update adds the fixed constant 0.016 and
ignores the elapsed wall-clock time, so the progress accumulator after a
run is determined by, and strictly increasing in, the frame count alone:
two runs agree exactly when their frame counts agree. -/
theorem c5_amended_progress_determined_by_frame_count (m n : Nat) :
    animProgressAfterFrames m = animProgressAfterFrames n ↔ m = n := by
  rw [animProgressAfterFrames_eq, animProgressAfterFrames_eq]
  constructor
  · intro h
    have hd : (frameDelta : Rat) ≠ 0 := by norm_num [frameDelta]
    have := mul_right_cancel₀ hd h
    exact_mod_cast this
  · intro h
    rw [h]

/-- C9: for every progress value, the Dissolve opacity
`0.4 + 0.6 * |cos (progress * 2.5)|` lies in `[0.4, 1]`. -/
theorem c9_dissolve_opacity_in_bounds (p : Rat) :
    (0.4 : Real) ≤ dissolveOpacity p ∧ dissolveOpacity p ≤ 1 := by
  unfold dissolveOpacity
  have h1 : |Real.cos ((p : Real) * (5/2))| ≤ 1 := Real.abs_cos_le_one _
  have h2 : (0 : Real) ≤ |Real.cos ((p : Real) * (5/2))| := abs_nonneg _
  constructor <;> nlinarith

/-- C3: one Bounce frame keeps the written window position inside
`[0, monitor_w - window_w] x [0, monitor_h - window_h]` (whenever the
window fits on the monitor), clamps it to the boundary being crossed, and
negates a velocity component exactly when the corresponding boundary would
be crossed this frame. -/
theorem c3_bounce_containment_clamp_and_flip (px py vx vy : Int) (winW winH monW monH : Nat)
    (hw : (winW : Int) ≤ (monW : Int)) (hh : (winH : Int) ≤ (monH : Int)) :
    (0 ≤ (bounceFrame px py vx vy winW winH monW monH).1.1 ∧
     (bounceFrame px py vx vy winW winH monW monH).1.1 ≤ (monW : Int) - (winW : Int) ∧
     0 ≤ (bounceFrame px py vx vy winW winH monW monH).1.2 ∧
     (bounceFrame px py vx vy winW winH monW monH).1.2 ≤ (monH : Int) - (winH : Int)) ∧
    ((bounceFrame px py vx vy winW winH monW monH).1.1 =
      if px + vx < 0 then 0
      else if (monW : Int) < px + vx + (winW : Int) then (monW : Int) - (winW : Int)
      else px + vx) ∧
    ((bounceFrame px py vx vy winW winH monW monH).1.2 =
      if py + vy < 0 then 0
      else if (monH : Int) < py + vy + (winH : Int) then (monH : Int) - (winH : Int)
      else py + vy) ∧
    ((bounceFrame px py vx vy winW winH monW monH).2.1 =
      if px + vx < 0 ∨ (monW : Int) < px + vx + (winW : Int) then -vx else vx) ∧
    ((bounceFrame px py vx vy winW winH monW monH).2.2 =
      if py + vy < 0 ∨ (monH : Int) < py + vy + (winH : Int) then -vy else vy) := by
  unfold bounceFrame
  by_cases h1 : px + vx < 0 <;> by_cases h2 : (monW : Int) < px + vx + (winW : Int) <;>
    by_cases h3 : py + vy < 0 <;> by_cases h4 : (monH : Int) < py + vy + (winH : Int) <;>
    simp only [h1, h2, h3, h4, if_true, if_false, ite_true, ite_false, or_true, true_or,
      or_self, or_false, false_or, gt_iff_lt] <;>
    and_intros <;> first | omega | trivial

/-- C3 witness: a window of 100 x 50 at (190, 140) moving with velocity
(5, 4) on a 200 x 150 monitor is clamped to (100, 100) with both velocity
components negated. -/
theorem c3_bounce_containment_clamp_and_flip_witness :
    ((100 : Nat) : Int) ≤ ((200 : Nat) : Int) ∧
    (0 ≤ (bounceFrame 190 140 5 4 100 50 200 150).1.1 ∧
     (bounceFrame 190 140 5 4 100 50 200 150).1.1 ≤ ((200 : Nat) : Int) - ((100 : Nat) : Int) ∧
     0 ≤ (bounceFrame 190 140 5 4 100 50 200 150).1.2 ∧
     (bounceFrame 190 140 5 4 100 50 200 150).1.2 ≤ ((150 : Nat) : Int) - ((50 : Nat) : Int)) :=
  ⟨by norm_num,
   (c3_bounce_containment_clamp_and_flip 190 140 5 4 100 50 200 150
     (by norm_num) (by norm_num)).1⟩

/-! Round-trip lemmas for the serialized settings. -/

theorem decodeNat_encodeNat (n : Nat) : decodeNat (encodeNat n) = some n := by
  simp [decodeNat, encodeNat]

theorem decodeInt_encodeInt (n : Int) : decodeInt (encodeInt n) = some n := by
  simp [decodeInt, encodeInt]

theorem decodeQuote_encodeQuote (q : Quote) : decodeQuote (encodeQuote q) = some q :=
  rfl

theorem decodeQuotes_map (l : List Quote) :
    decodeQuotes (l.map encodeQuote) = some l := by
  induction l with
  | nil => rfl
  | cons q qs ih => simp [decodeQuotes, decodeQuote_encodeQuote, ih]

theorem decodeColor_encodeColor (c : Color32) : decodeColor (encodeColor c) = some c := by
  simp [decodeColor, encodeColor, decodeNat_encodeNat]

theorem decodeColors_map (l : List Color32) :
    decodeColors (l.map encodeColor) = some l := by
  induction l with
  | nil => rfl
  | cons c cs ih => simp [decodeColors, decodeColor_encodeColor, ih]

theorem decodeMode_encodeMode (m : ThemeMode) : decodeMode (encodeMode m) = some m := by
  cases m <;> rfl

theorem decodeTheme_encodeTheme (t : ThemeConfig) :
    decodeTheme (encodeTheme t) = some t := by
  simp [decodeTheme, encodeTheme, decodeMode_encodeMode, decodeInt_encodeInt,
    decodeColors_map, decodeColor_encodeColor]

theorem decodeTextStyle_encodeTextStyle (t : TextStyleConfig) :
    decodeTextStyle (encodeTextStyle t) = some t := by
  simp [decodeTextStyle, encodeTextStyle, decodeRat, decodeColor_encodeColor]

/-- C7: serializing the settings (quote list, interval, theme, text style)
and deserializing them yields the settings back, field for field. -/
theorem c7_settings_roundtrip (c : AppConfig) :
    decodeAppConfig (encodeAppConfig c) = some c := by
  simp [decodeAppConfig, encodeAppConfig, decodeQuotes_map, decodeNat_encodeNat,
    decodeTheme_encodeTheme, decodeTextStyle_encodeTextStyle]

/-! Helper lemmas about the animation frame step. -/

/-- No action handler touches the progress accumulator. -/
theorem handleAnimAction_anim_progress (s : AppState) (w : Win)
    (pr : Option (Int × Int)) (a : AnimAction) :
    (handleAnimAction s w pr a).1.anim_progress = s.anim_progress := by
  cases a <;> cases pr <;>
    simp only [handleAnimAction, captureBase] <;>
    split_ifs <;> rfl

/-- Outside the Rotate branch, the engine adds exactly the fixed increment
to the accumulator. -/
theorem engineStep_anim_progress (s : AppState) (w : Win) (monW monH : Nat)
    (h : s.active_animation ≠ AppAnimation.rotate) :
    (engineStep s w monW monH).1.anim_progress = s.anim_progress + frameDelta := by
  unfold engineStep
  by_cases hb : s.base_pos = none <;> cases ha : s.active_animation <;> simp_all

/-- In the Rotate branch, the engine zeroes the accumulator exactly when
the incremented value exceeds 2.5. -/
theorem engineStep_anim_progress_rotate (s : AppState) (w : Win) (monW monH : Nat)
    (h : s.active_animation = AppAnimation.rotate) :
    (engineStep s w monW monH).1.anim_progress =
      if s.anim_progress + frameDelta > 5/2 then 0 else s.anim_progress + frameDelta := by
  unfold engineStep
  by_cases hb : s.base_pos = none <;> simp_all <;> split_ifs <;> simp_all

/-- The cleanup arm zeroes the accumulator exactly when a base position is
still held. -/
theorem cleanupStep_anim_progress (s : AppState) (w : Win) :
    (cleanupStep s w).1.anim_progress = if s.base_pos.isSome then 0 else s.anim_progress := by
  unfold cleanupStep
  split_ifs <;> simp_all

/-- C1 (failing input): with Shake active, base position captured at
(100, 100), and the window currently displaced to (112, 100), triggering
Shake again does set `active_animation` to `None` and clears `base_pos`,
but the window is left at (112, 100) instead of being restored to the
captured (100, 100): the restore condition in the cleanup arm tests the
already-cleared animation and never fires. -/
theorem c1_second_shake_trigger_leaves_window_displaced :
    (frameAnimStep shakeActiveState shakenWin [AnimAction.playShake] 1920 1080).1.active_animation
        = AppAnimation.none ∧
    (frameAnimStep shakeActiveState shakenWin [AnimAction.playShake] 1920 1080).1.base_pos
        = none ∧
    (frameAnimStep shakeActiveState shakenWin [AnimAction.playShake] 1920 1080).2.pos
        = (112, 100) ∧
    ((112 : Int), (100 : Int)) ≠ ((100 : Int), (100 : Int)) :=
  ⟨rfl, rfl, rfl, by decide⟩

/-- C6 counterexample: with Shake active and progress 1/2, triggering Shake
again runs the cleanup in the same frame and zeroes the accumulator, so a
reset happens on a step whose animation went from Shake (non-None) to
None - not on a None to non-None transition. -/
theorem c6_counterexample_reset_on_shake_to_none :
    shakeActiveState.anim_progress ≠ 0 ∧
    shakeActiveState.active_animation ≠ AppAnimation.none ∧
    (frameAnimStep shakeActiveState shakenWin [AnimAction.playShake] 1920 1080).1.active_animation
        = AppAnimation.none ∧
    (frameAnimStep shakeActiveState shakenWin [AnimAction.playShake] 1920 1080).1.anim_progress
        = 0 :=
  ⟨by norm_num [shakeActiveState, defaultAppState], by decide, rfl, rfl⟩

/-- C6 amended: within one frame that dispatches a single animation action,
the accumulator is zeroed only by (a) the cleanup arm, which runs when the
dispatched action leaves `active_animation` at `None` with a base position
still held - that is, just after an animation stops - or (b) the Rotate
branch once the incremented accumulator exceeds 2.5; when the action
leaves any other animation active (including a direct swap from one
non-None animation to another) the accumulator just grows by 0.016 and is
never reset. -/
theorem c6_amended_progress_reset_sites (s : AppState) (w : Win) (a : AnimAction)
    (monW monH : Nat) (hp : 0 ≤ s.anim_progress) :
    (((handleAnimAction s w (some w.pos) a).1.active_animation ≠ AppAnimation.none ∧
      (handleAnimAction s w (some w.pos) a).1.active_animation ≠ AppAnimation.rotate) →
      (frameAnimStep s w [a] monW monH).1.anim_progress = s.anim_progress + frameDelta ∧
      (frameAnimStep s w [a] monW monH).1.anim_progress ≠ 0) ∧
    ((handleAnimAction s w (some w.pos) a).1.active_animation = AppAnimation.rotate →
      (frameAnimStep s w [a] monW monH).1.anim_progress =
        if s.anim_progress + frameDelta > 5/2 then 0 else s.anim_progress + frameDelta) ∧
    ((handleAnimAction s w (some w.pos) a).1.active_animation = AppAnimation.none →
      (frameAnimStep s w [a] monW monH).1.anim_progress =
        if (handleAnimAction s w (some w.pos) a).1.base_pos.isSome then 0
        else s.anim_progress) := by
  have hstep : frameAnimStep s w [a] monW monH =
      (if (handleAnimAction s w (some w.pos) a).1.active_animation ≠ AppAnimation.none
       then engineStep (handleAnimAction s w (some w.pos) a).1
              (handleAnimAction s w (some w.pos) a).2 monW monH
       else cleanupStep (handleAnimAction s w (some w.pos) a).1
              (handleAnimAction s w (some w.pos) a).2) := rfl
  refine ⟨fun h => ?_, fun hr => ?_, fun hn => ?_⟩
  · rw [hstep, if_pos h.1, engineStep_anim_progress _ _ _ _ h.2,
      handleAnimAction_anim_progress]
    refine ⟨rfl, ?_⟩
    have hd : (0 : Rat) < frameDelta := by norm_num [frameDelta]
    intro habs
    nlinarith
  · have hne : (handleAnimAction s w (some w.pos) a).1.active_animation ≠ AppAnimation.none := by
      rw [hr]
      decide
    rw [hstep, if_pos hne, engineStep_anim_progress_rotate _ _ _ _ hr,
      handleAnimAction_anim_progress]
  · rw [hstep, if_neg (by simp [hn]), cleanupStep_anim_progress,
      handleAnimAction_anim_progress]

/-- C6 amended witness: the theorem applied to the default idle state and a
`StopAnimations` action. -/
theorem c6_amended_progress_reset_sites_witness :
    0 ≤ defaultAppState.anim_progress ∧
    ((handleAnimAction defaultAppState defaultWin (some defaultWin.pos)
        AnimAction.stopAnimations).1.active_animation = AppAnimation.none →
      (frameAnimStep defaultAppState defaultWin [AnimAction.stopAnimations] 1920 1080).1.anim_progress =
        if (handleAnimAction defaultAppState defaultWin (some defaultWin.pos)
            AnimAction.stopAnimations).1.base_pos.isSome then 0
        else defaultAppState.anim_progress) :=
  ⟨le_refl 0,
   (c6_amended_progress_reset_sites defaultAppState defaultWin AnimAction.stopAnimations
     1920 1080 (le_refl 0)).2.2⟩

end Motivation
